import Mathlib

/-! # Verification of `merge_sessions.py`

Shallow embedding of the session-transcript merging tool: file discovery,
tolerant record reading, per-fragment classification, summary aggregation,
global time-sorting of messages and re-emission as one merged file.

Conventions of the embedding:
* a parsed JSON value is `JValue`; a record (one parsed transcript line,
  a Python dict) is an association list `Record` with pairwise-distinct keys;
* raw file text is abstracted line by line: a physical line is either blank
  after stripping, fails `json.loads`, or parses to a `Record` (`Line`);
* `datetime` values are `PyDateTime`; Python's `datetime.fromisoformat`
  (3.7-style grammar `YYYY-MM-DD[<sep>HH[:MM[:SS[.fff[fff]]]][±HH:MM[:SS[.ffffff]]]]`,
  digits only in numeric components) is `pyFromisoformat`;
* the nondeterministic inputs of the script (`uuid.uuid4()`, the three
  `datetime.now()` calls) are explicit parameters, and a bound on how many
  output lines can be written before the file system fails is threaded in to
  model write errors;
* Python's `list.sort(key=...)` on datetimes raises `TypeError` as soon as a
  timezone-naive key is compared with a timezone-aware one, which a stable
  sort does whenever both kinds occur; this is modeled by `pySortByKey`
  returning an error exactly in that case.
-/

/-- A JSON value, as produced by `json.loads` on one transcript line.
Numbers are modeled as integers (the statistics fields summed by the tool
are integer counts). -/
inductive JValue where
  | jnull
  | jbool (b : Bool)
  | jnum (n : Int)
  | jstr (s : String)
  | jarr (elems : List JValue)
  | jobj (fields : List (String × JValue))

/-- A parsed record: a JSON object / Python dict, keys pairwise distinct. -/
abbrev Record := List (String × JValue)

/-- Python `d.get(k)`: the value at key `k`, if present. -/
def getField : Record → String → Option JValue
  | [], _ => none
  | (k', v) :: rest, k => if k' = k then some v else getField rest k

/-- Python `d[k] = v` on a (copied) dict: replace the value at `k` in place,
or append the binding at the end when the key is absent. -/
def setField : Record → String → JValue → Record
  | [], k, v => [(k, v)]
  | (k', v') :: rest, k, v =>
      if k' = k then (k, v) :: rest else (k', v') :: setField rest k v

/-- Python `d.get(k, {})` where an object is expected: the fields of the
value at `k` when it is an object, `{}` otherwise. -/
def getObjD (r : Record) (k : String) : Record :=
  match getField r k with
  | some (.jobj o) => o
  | _ => []

/-- Python `d.get(k, 0)` where a number is expected: the integer at `k`
when present, `0` otherwise. -/
def getIntD (r : Record) (k : String) : Int :=
  match getField r k with
  | some (.jnum n) => n
  | _ => 0

/-- Python `d.get('timestamp', '')`: the timestamp string of a record
(`''` when the field is absent or not a string). -/
def tsString (r : Record) : String :=
  match getField r "timestamp" with
  | some (.jstr s) => s
  | _ => ""

/-- Python `d.get('type') == s`: the `type` discriminator equals string `s`. -/
def isTypeStr (r : Record) (s : String) : Bool :=
  match getField r "type" with
  | some (.jstr t) => t == s
  | _ => false

/-- Python `d.get('type') in ('user', 'assistant', 'assistant_thinking')`. -/
def isMessageType (r : Record) : Bool :=
  isTypeStr r "user" || isTypeStr r "assistant" || isTypeStr r "assistant_thinking"

/-- Python `datetime`: proleptic-Gregorian date and time fields plus an
optional UTC offset in microseconds (`none` models a timezone-naive value,
`some off` a value with `tzinfo` of that fixed offset). -/
structure PyDateTime where
  year : Nat
  month : Nat
  day : Nat
  hour : Nat
  minute : Nat
  second : Nat
  micro : Nat
  tzOffset : Option Int
deriving DecidableEq, Repr

/-- `datetime.min.replace(tzinfo=timezone.utc)`: the sentinel "earliest
possible" timezone-aware instant. -/
def pyDatetimeMinUtc : PyDateTime := ⟨1, 1, 1, 0, 0, 0, 0, some 0⟩

def isLeapYear (y : Nat) : Bool :=
  y % 4 == 0 && (y % 100 != 0 || y % 400 == 0)

def daysInMonth (y m : Nat) : Nat :=
  if m = 2 then (if isLeapYear y then 29 else 28)
  else if m = 4 ∨ m = 6 ∨ m = 9 ∨ m = 11 then 30 else 31

def daysBeforeYear (y : Nat) : Nat :=
  365 * (y - 1) + (y - 1) / 4 + (y - 1) / 400 - (y - 1) / 100

def daysBeforeMonth (y m : Nat) : Nat :=
  ((List.range (m - 1)).map fun i => daysInMonth y (i + 1)).sum

/-- `datetime.toordinal`, shifted to start at `0` for year 1, January 1. -/
def toOrdinal (y m d : Nat) : Nat :=
  daysBeforeYear y + daysBeforeMonth y m + (d - 1)

/-- The instant denoted by a `PyDateTime`, in microseconds from the earliest
representable instant, adjusted by the UTC offset when present.  Python
compares two aware datetimes, or two naive datetimes, exactly by this value. -/
def dtAbs (dt : PyDateTime) : Int :=
  ((toOrdinal dt.year dt.month dt.day * 86400
      + dt.hour * 3600 + dt.minute * 60 + dt.second : Nat) : Int) * 1000000
    + (dt.micro : Int) - (dt.tzOffset.getD 0)

def digitVal? (c : Char) : Option Nat :=
  if '0' ≤ c ∧ c ≤ '9' then some (c.toNat - '0'.toNat) else none

def twoDigits? (a b : Char) : Option Nat := do
  let x ← digitVal? a
  let y ← digitVal? b
  pure (10 * x + y)

/-- `_parse_isoformat_date`: exactly `YYYY-MM-DD`, all digits. -/
def parseDateChars : List Char → Option (Nat × Nat × Nat)
  | [y1, y2, y3, y4, s1, m1, m2, s2, d1, d2] => do
      guard (s1 = '-' ∧ s2 = '-')
      let a ← digitVal? y1
      let b ← digitVal? y2
      let c ← digitVal? y3
      let d ← digitVal? y4
      let m ← twoDigits? m1 m2
      let dd ← twoDigits? d1 d2
      pure (1000 * a + 100 * b + 10 * c + d, m, dd)
  | _ => none

/-- `_parse_hh_mm_ss_ff`: hour, minute, second, microsecond components in
one of the shapes `HH`, `HH:MM`, `HH:MM:SS`, `HH:MM:SS.fff`,
`HH:MM:SS.ffffff`. -/
def parseHMSF : List Char → Option (Nat × Nat × Nat × Nat)
  | [h1, h2] => do
      let h ← twoDigits? h1 h2
      pure (h, 0, 0, 0)
  | [h1, h2, c1, m1, m2] => do
      guard (c1 = ':')
      let h ← twoDigits? h1 h2
      let mi ← twoDigits? m1 m2
      pure (h, mi, 0, 0)
  | [h1, h2, c1, m1, m2, c2, s1, s2] => do
      guard (c1 = ':' ∧ c2 = ':')
      let h ← twoDigits? h1 h2
      let mi ← twoDigits? m1 m2
      let s ← twoDigits? s1 s2
      pure (h, mi, s, 0)
  | [h1, h2, c1, m1, m2, c2, s1, s2, p, f1, f2, f3] => do
      guard (c1 = ':' ∧ c2 = ':' ∧ p = '.')
      let h ← twoDigits? h1 h2
      let mi ← twoDigits? m1 m2
      let s ← twoDigits? s1 s2
      let a ← digitVal? f1
      let b ← digitVal? f2
      let c ← digitVal? f3
      pure (h, mi, s, (100 * a + 10 * b + c) * 1000)
  | [h1, h2, c1, m1, m2, c2, s1, s2, p, f1, f2, f3, f4, f5, f6] => do
      guard (c1 = ':' ∧ c2 = ':' ∧ p = '.')
      let h ← twoDigits? h1 h2
      let mi ← twoDigits? m1 m2
      let s ← twoDigits? s1 s2
      let a ← digitVal? f1
      let b ← digitVal? f2
      let c ← digitVal? f3
      let d ← digitVal? f4
      let e ← digitVal? f5
      let f ← digitVal? f6
      pure (h, mi, s, 100000 * a + 10000 * b + 1000 * c + 100 * d + 10 * e + f)
  | _ => none

/-- `tstr.find('-') + 1 or tstr.find('+') + 1`: split the time string at the
first `-` if any, else at the first `+`; returns the time components and,
when a sign was found, its direction (`true` = negative) and the characters
after it. -/
def splitAtTz (tcs : List Char) : List Char × Option (Bool × List Char) :=
  match tcs.findIdx? (· == '-') with
  | some i => (tcs.take i, some (true, tcs.drop (i + 1)))
  | none =>
      match tcs.findIdx? (· == '+') with
      | some i => (tcs.take i, some (false, tcs.drop (i + 1)))
      | none => (tcs, none)

/-- The UTC-offset string after the sign: length must be 5, 8 or 15; the
resulting `timedelta` must be strictly within a day (`timezone` raises
otherwise). Offset in microseconds, negated for a `-` sign. -/
def parseTzChars (isNeg : Bool) (tzcs : List Char) : Option Int := do
  guard (tzcs.length = 5 ∨ tzcs.length = 8 ∨ tzcs.length = 15)
  let (h, mi, s, us) ← parseHMSF tzcs
  let total : Int := ((h * 3600 + mi * 60 + s : Nat) : Int) * 1000000 + us
  guard (total < 86400000000)
  pure (if isNeg then -total else total)

/-- `datetime.fromisoformat` on a character list: `YYYY-MM-DD`, optionally
followed by any single separator character and a time, optionally carrying a
UTC offset.  Field ranges are validated as the `datetime` constructor does;
any failure yields `none` (Python: `ValueError`). -/
def pyFromisoformat (cs : List Char) : Option PyDateTime := do
  let (y, m, d) ← parseDateChars (cs.take 10)
  guard (1 ≤ y ∧ 1 ≤ m ∧ m ≤ 12 ∧ 1 ≤ d ∧ d ≤ daysInMonth y m)
  match cs.drop 10 with
  | [] => pure ⟨y, m, d, 0, 0, 0, 0, none⟩
  | _sep :: tcs => do
      let (timecs, tz?) := splitAtTz tcs
      let (h, mi, s, us) ← parseHMSF timecs
      guard (h ≤ 23 ∧ mi ≤ 59 ∧ s ≤ 59)
      match tz? with
      | none => pure ⟨y, m, d, h, mi, s, us, none⟩
      | some (isNeg, tzcs) => do
          let off ← parseTzChars isNeg tzcs
          pure ⟨y, m, d, h, mi, s, us, some off⟩

/-- Python `ts.replace('Z', '+00:00')`: every occurrence of the character
`Z` is replaced by `+00:00`. -/
def zExpand (c : Char) : List Char :=
  if c = 'Z' then ['+', '0', '0', ':', '0', '0'] else [c]

def replaceZ (cs : List Char) : List Char :=
  (cs.map zExpand).flatten

/-- `parse_timestamp` (merge_sessions.py, lines 18-25): empty input is falsy
and yields the aware sentinel; otherwise `Z` is textually replaced by
`+00:00` and the string is handed to `fromisoformat`, any failure again
yielding the aware sentinel. -/
def parse_timestamp (ts : String) : PyDateTime :=
  if ts.data.isEmpty then pyDatetimeMinUtc
  else
    match pyFromisoformat (replaceZ ts.data) with
    | some d => d
    | none => pyDatetimeMinUtc








/-- One physical line of a transcript file, abstracted at the `json.loads`
boundary: blank after `strip()`, failing `json.loads` (`JSONDecodeError`),
or parsing to a record. -/
inductive Line where
  | blank
  | bad
  | parsed (r : Record)

/-- One directory entry: a file name together with its content as lines, or
`none` when opening/reading the file raises (permissions, encoding). -/
structure SFile where
  name : String
  content : Option (List Line)

/-- The target directory: its entries in file-system enumeration order (the
order `Path.glob` yields them). -/
abbrev Dir := List SFile

/-- `pat` is a prefix of `s`. -/
def leadsWith : List Char → List Char → Bool
  | [], _ => true
  | _ :: _, [] => false
  | a :: as, b :: bs => a == b && leadsWith as bs

/-- `pat` is a suffix of `s`. -/
def trailsWith (pat s : List Char) : Bool :=
  leadsWith pat.reverse s.reverse

/-- Python `pat in s`: `pat` occurs as a substring of `s`. -/
def containsSub (pat : List Char) : List Char → Bool
  | [] => pat.isEmpty
  | c :: rest => leadsWith pat (c :: rest) || containsSub pat rest

/-- Python `str.replace(pat, rep)` for a non-empty pattern: replace
non-overlapping occurrences left to right. -/
def replaceSub (pat rep : List Char) : List Char → List Char
  | [] => []
  | c :: rest =>
      if leadsWith pat (c :: rest) ∧ pat ≠ [] then
        rep ++ replaceSub pat rep (rest.drop (pat.length - 1))
      else
        c :: replaceSub pat rep rest
termination_by l => l.length
decreasing_by
  · simp only [List.length_drop, List.length_cons]
    omega
  · simp only [List.length_cons]
    omega

/-- The file name matches the glob pattern `session_*.jsonl`. -/
def matchesSessionGlob (n : String) : Bool :=
  leadsWith "session_".data n.data && trailsWith ".jsonl".data n.data

/-- Python `"_raw.jsonl" in f.name`. -/
def isRawName (n : String) : Bool :=
  containsSub "_raw.jsonl".data n.data

/-- A primary (processed) fragment: matches the glob and is not raw. -/
def isPrimaryFile (f : SFile) : Bool :=
  matchesSessionGlob f.name && !isRawName f.name

/-- The number of primary fragment files in the directory. -/
def countPrimary (dir : Dir) : Nat :=
  (dir.filter isPrimaryFile).length

/-- `Path.stem` followed by `.replace('session_', '')`: strip the `.jsonl`
extension, then delete every occurrence of `session_`. -/
def sessionIdOfName (n : String) : String :=
  ⟨replaceSub "session_".data [] (n.data.take (n.data.length - 6))⟩

/-- `get_start_time` (find_session_files, lines 38-47): read lines in order;
the first line that is blank or malformed raises inside the `try` and the
whole lookup falls back to the sentinel — unlike the record reader, bad
lines are *not* skipped here.  The timestamp of the first `session_start`
record (before any such line) is parsed; a file with no `session_start`, or
an unreadable file, gets the sentinel. -/
def firstStartTime : List Line → PyDateTime
  | [] => pyDatetimeMinUtc
  | .blank :: _ => pyDatetimeMinUtc
  | .bad :: _ => pyDatetimeMinUtc
  | .parsed r :: rest =>
      if isTypeStr r "session_start" then parse_timestamp (tsString r)
      else firstStartTime rest

def get_start_time (f : SFile) : PyDateTime :=
  match f.content with
  | none => pyDatetimeMinUtc
  | some lines => firstStartTime lines

/-- The comparison key classes are uniform: not both a timezone-aware and a
timezone-naive key occur.  Python's `sort` raises `TypeError` exactly when
a naive datetime meets an aware one in a comparison, which a stable sort
performs whenever both kinds are present. -/
def sameClass (ks : List PyDateTime) : Bool :=
  !((ks.any fun d => d.tzOffset.isSome) && (ks.any fun d => d.tzOffset.isNone))

/-- Python `lst.sort(key=key)`: stable, ascending by the key's instant;
raises (`.error`) when aware and naive keys are mixed.  Within a uniform
class Python's datetime order coincides with the order of `dtAbs`. -/
def pySortByKey {α : Type} (key : α → PyDateTime) (l : List α) :
    Except Unit (List α) :=
  if sameClass (l.map key) then
    .ok (List.insertionSort (fun a b => dtAbs (key a) ≤ dtAbs (key b)) l)
  else
    .error ()

/-- `find_session_files` (lines 28-58): split the glob matches into primary
and raw, sort the primary files ascending by their embedded start time, then
pair each primary id with its raw companion when that file exists. -/
def find_session_files (dir : Dir) : Except Unit (List SFile × List SFile) :=
  match pySortByKey get_start_time (dir.filter isPrimaryFile) with
  | .error e => .error e
  | .ok sorted =>
      .ok (sorted,
        (sorted.map fun f => sessionIdOfName f.name).filterMap fun sid =>
          dir.find? fun g => g.name == "session_" ++ sid ++ "_raw.jsonl")

/-- `read_session_events` (lines 61-74): an unreadable file yields `[]`
(with a warning); otherwise blank lines are skipped and lines failing
`json.loads` are dropped, every parsed record being kept in order. -/
def lineRecord : Line → Option Record
  | .blank => none
  | .bad => none
  | .parsed r => some r

def read_session_events (f : SFile) : List Record :=
  match f.content with
  | none => []
  | some lines => lines.filterMap lineRecord

/-- Per-fragment classification result (`extract_session_data`'s dict). -/
structure SessionData where
  session_start : Option Record
  session_end : Option Record
  session_summary : Option Record
  messages : List Record
  other_events : List Record

/-- One step of the classification loop (lines 86-97): lifecycle types
overwrite their slot (last occurrence wins), message types are appended to
`messages`, anything else — including a record with no `type` — to
`other_events`. -/
def classStep (d : SessionData) (event : Record) : SessionData :=
  if isTypeStr event "session_start" then { d with session_start := some event }
  else if isTypeStr event "session_end" then { d with session_end := some event }
  else if isTypeStr event "session_summary" then { d with session_summary := some event }
  else if isMessageType event then { d with messages := d.messages ++ [event] }
  else { d with other_events := d.other_events ++ [event] }

def extract_session_data (events : List Record) : SessionData :=
  events.foldl classStep ⟨none, none, none, [], []⟩

/-- Running totals of `aggregate_summaries` (lines 102-112). -/
structure Totals where
  total_duration_seconds : Int
  total_messages : Int
  assistant_messages : Int
  user_prompts : Int
  total_input_tokens : Int
  total_output_tokens : Int
deriving DecidableEq, Repr

/-- One step of the aggregation loop (lines 114-123): read the nested
`summary_data` mapping (and its `usage_totals`), missing fields
contributing zero. -/
def aggStep (t : Totals) (summary : Record) : Totals :=
  let sd := getObjD summary "summary_data"
  let ut := getObjD sd "usage_totals"
  { total_duration_seconds := t.total_duration_seconds + getIntD sd "total_duration_seconds"
    total_messages := t.total_messages + getIntD sd "total_messages"
    assistant_messages := t.assistant_messages + getIntD sd "assistant_messages"
    user_prompts := t.user_prompts + getIntD sd "user_prompts"
    total_input_tokens := t.total_input_tokens + getIntD ut "total_input_tokens"
    total_output_tokens := t.total_output_tokens + getIntD ut "total_output_tokens" }

/-- The totals serialized back into the dict shape built at lines 103-112. -/
def totalsRecord (t : Totals) : Record :=
  [("total_duration_seconds", .jnum t.total_duration_seconds),
   ("total_messages", .jnum t.total_messages),
   ("assistant_messages", .jnum t.assistant_messages),
   ("user_prompts", .jnum t.user_prompts),
   ("usage_totals", .jobj
     [("total_input_tokens", .jnum t.total_input_tokens),
      ("total_output_tokens", .jnum t.total_output_tokens)])]

def aggregate_summaries (summaries : List Record) : Record :=
  totalsRecord (summaries.foldl aggStep ⟨0, 0, 0, 0, 0, 0⟩)

/-- Lines 144-149: every message of every fragment, in fragment order, is
copied and stamped with the merged session id. -/
def stampMessage (mergedId : String) (m : Record) : Record :=
  setField m "session_id" (.jstr mergedId)

def stampMessages (sds : List SessionData) (mergedId : String) : List Record :=
  (sds.map fun sd => sd.messages.map (stampMessage mergedId)).flatten

/-- Line 153: fragments whose summary slot is unset (or, vacuously, an empty
dict, which is falsy) contribute nothing. -/
def collectSummaries (sds : List SessionData) : List Record :=
  sds.filterMap fun sd =>
    match sd.session_summary with
    | some r => if r.isEmpty then none else some r
    | none => none

/-- The sort key of line 151: the parsed `timestamp` field. -/
def msgKey (m : Record) : PyDateTime :=
  parse_timestamp (tsString m)

/-- The synthesized records of lines 156-173, in their dict key order. -/
def mkStart (mergedId ts : String) : Record :=
  [("type", .jstr "session_start"), ("timestamp", .jstr ts),
   ("session_id", .jstr mergedId)]

def mkSummary (mergedId ts : String) (agg : Record) : Record :=
  [("type", .jstr "session_summary"), ("timestamp", .jstr ts),
   ("session_id", .jstr mergedId), ("summary_data", .jobj agg)]

def mkEnd (mergedId ts : String) : Record :=
  [("type", .jstr "session_end"), ("timestamp", .jstr ts),
   ("session_id", .jstr mergedId)]

/-- The fragment classification of the sorted primary files (lines 135-139). -/
def sessionDatas (ps : List SFile) : List SessionData :=
  ps.map fun pf => extract_session_data (read_session_events pf)

/-- The "anything else" bucket of the classifier: no lifecycle type and no
message type. -/
def isOtherEvent (r : Record) : Bool :=
  !isTypeStr r "session_start" && !isTypeStr r "session_end" &&
    !isTypeStr r "session_summary" && !isMessageType r

/-- Every message of every (classified) primary fragment, in fragment order:
the un-stamped source sequence of the merged message list. -/
def allFragMessages (ps : List SFile) : List Record :=
  ((sessionDatas ps).map SessionData.messages).flatten

/-- Outcome of one invocation of `merge_sessions`.  `notMerged n` is the
`False` return after printing that `n` files were found; `typeError` is the
uncaught exception of a naive/aware datetime comparison; `merged` carries
the name and full record sequence of the written file; `writeFailed`
carries the name and the records actually on disk when a write raised. -/
inductive MergeOutcome where
  | notMerged (found : Nat)
  | typeError
  | merged (fname : String) (records : List Record)
  | writeFailed (fname : String) (written : List Record)

/-- The write loop of lines 176-181: `open(..., 'w')` truncates/creates the
file, then the records are written one line at a time.  `budget = some b`
injects a file-system failure at the `b`-th line write; the exception
propagates and whatever was written stays on disk. -/
def writeAll (fname : String) (records : List Record) (budget : Option Nat) :
    MergeOutcome :=
  match budget with
  | none => .merged fname records
  | some b =>
      if records.length ≤ b then .merged fname records
      else .writeFailed fname (records.take b)

/-- `merge_sessions` (lines 128-184).  `mergedId` stands for the fresh
`uuid.uuid4()` of line 141 and `n1 n2 n3` for the three `datetime.now()`
strings of lines 158, 164 and 171. -/
def merge_sessions (dir : Dir) (mergedId n1 n2 n3 : String)
    (budget : Option Nat) : MergeOutcome :=
  match find_session_files dir with
  | .error _ => .typeError
  | .ok (processed_files, _raw_files) =>
      if processed_files.length < 2 then .notMerged processed_files.length
      else
        match pySortByKey msgKey (stampMessages (sessionDatas processed_files) mergedId) with
        | .error _ => .typeError
        | .ok sortedMsgs =>
            writeAll ("session_" ++ mergedId ++ ".jsonl")
              (mkStart mergedId n1 :: sortedMsgs
                ++ [mkSummary mergedId n2
                      (aggregate_summaries (collectSummaries (sessionDatas processed_files))),
                    mkEnd mergedId n3])
              budget

/-! ## Concrete example data

Two well-formed fragments (`exFileA`, `exFileB`), listed in the directory in
reverse chronological order so that discovery has to reorder them, plus
fragments exercising the failure paths. -/

def exStartA : Record :=
  [("type", .jstr "session_start"),
   ("timestamp", .jstr "2024-01-01T00:00:00+00:00"), ("session_id", .jstr "aa")]

def exMsgA : Record :=
  [("type", .jstr "user"), ("timestamp", .jstr "2024-01-01T00:00:02+00:00"),
   ("session_id", .jstr "aa"), ("content", .jstr "hi")]

def exSummA : Record :=
  [("type", .jstr "session_summary"),
   ("summary_data", .jobj
     [("total_messages", .jnum 1),
      ("usage_totals", .jobj [("total_input_tokens", .jnum 100)])])]

def exStartB : Record :=
  [("type", .jstr "session_start"),
   ("timestamp", .jstr "2024-01-01T00:00:01+00:00"), ("session_id", .jstr "bb")]

def exMsgB : Record :=
  [("type", .jstr "assistant"),
   ("timestamp", .jstr "2024-01-01T00:00:01+00:00"), ("session_id", .jstr "bb")]

def exOtherB : Record := [("type", .jstr "debug_event")]

def exSummB : Record :=
  [("type", .jstr "session_summary"),
   ("summary_data", .jobj
     [("total_duration_seconds", .jnum 5), ("total_messages", .jnum 2),
      ("usage_totals", .jobj
        [("total_input_tokens", .jnum 250), ("total_output_tokens", .jnum 7)])])]

def exFileA : SFile :=
  ⟨"session_aa.jsonl", some [.parsed exStartA, .parsed exMsgA, .parsed exSummA]⟩

def exFileB : SFile :=
  ⟨"session_bb.jsonl",
   some [.parsed exStartB, .blank, .parsed exMsgB, .parsed exOtherB, .parsed exSummB]⟩

def exDirOk : Dir := [exFileB, exFileA]

def exDirSingle : Dir := [exFileA]

/-- A message whose timestamp parses to a timezone-naive datetime. -/
def exMsgNaive : Record :=
  [("type", .jstr "user"), ("timestamp", .jstr "2024-06-01T10:00:00")]

/-- A message whose timestamp parses to a timezone-aware datetime. -/
def exMsgAware : Record :=
  [("type", .jstr "user"), ("timestamp", .jstr "2024-06-01T11:00:00+00:00")]

/-- Two primary fragments whose message timestamps mix the naive and aware
classes: sorting their messages raises `TypeError` in Python. -/
def exDirMixed : Dir :=
  [⟨"session_m1.jsonl", some [.parsed exMsgNaive]⟩,
   ⟨"session_m2.jsonl", some [.parsed exMsgAware]⟩]

/-- A fragment whose first line is malformed and whose second line is a
well-formed `session_start` record. -/
def exFileBadFirst : SFile :=
  ⟨"session_cc.jsonl", some [.bad, .parsed exStartA]⟩

/-- A fragment whose first record is not a `session_start` and whose second
record is one. -/
def exFileStartSecond : SFile :=
  ⟨"session_dd.jsonl", some [.parsed exOtherB, .parsed exStartB]⟩

/-- The exact record sequence the merge writes for `exDirOk` with merged id
`mid` and synthesized timestamps `t1`, `t2`, `t3`. -/
def exMergedRecords : List Record :=
  [mkStart "mid" "t1",
   stampMessage "mid" exMsgB,
   stampMessage "mid" exMsgA,
   mkSummary "mid" "t2" (totalsRecord ⟨5, 3, 0, 0, 350, 7⟩),
   mkEnd "mid" "t3"]

/-! ## Record field lemmas -/

theorem getField_setField_self (r : Record) (k : String) (v : JValue) :
    getField (setField r k v) k = some v := by
  induction r with
  | nil => simp [setField, getField]
  | cons p rest ih =>
      obtain ⟨k', v'⟩ := p
      by_cases h : k' = k
      · simp [setField, h, getField]
      · simp [setField, h, getField, ih]

theorem getField_setField_of_ne (r : Record) (k k' : String) (v : JValue)
    (h : k' ≠ k) : getField (setField r k v) k' = getField r k' := by
  induction r with
  | nil =>
      simp only [setField, getField]
      rw [if_neg fun hh => h hh.symm]
  | cons p rest ih =>
      obtain ⟨k'', v''⟩ := p
      by_cases hk : k'' = k
      · subst hk
        simp [setField, getField, h, Ne.symm h]
      · by_cases hk' : k'' = k'
        · simp [setField, hk, getField, hk', h]
        · simp [setField, hk, getField, hk', ih]

/-! ## `replaceZ` and `parse_timestamp` lemmas -/

theorem replaceZ_append (cs ds : List Char) :
    replaceZ (cs ++ ds) = replaceZ cs ++ replaceZ ds := by
  simp [replaceZ]

theorem replaceZ_of_not_mem {cs : List Char} (h : 'Z' ∉ cs) : replaceZ cs = cs := by
  induction cs with
  | nil => rfl
  | cons c cs ih =>
      simp only [List.mem_cons, not_or] at h
      show (List.map zExpand (c :: cs)).flatten = c :: cs
      rw [List.map_cons, List.flatten_cons,
        show zExpand c = [c] by simp [zExpand, Ne.symm h.1]]
      have hcs := ih h.2
      simp only [replaceZ] at hcs
      rw [hcs]
      rfl

theorem parse_timestamp_of_unparseable {s : String} (h1 : s.data ≠ [])
    (h2 : pyFromisoformat (replaceZ s.data) = none) :
    parse_timestamp s = pyDatetimeMinUtc := by
  unfold parse_timestamp
  rw [if_neg (by simpa [List.isEmpty_iff] using h1)]
  rw [h2]

theorem parse_timestamp_of_parseable {s : String} (h1 : s.data ≠ [])
    {d : PyDateTime} (h2 : pyFromisoformat (replaceZ s.data) = some d) :
    parse_timestamp s = d := by
  unfold parse_timestamp
  rw [if_neg (by simpa [List.isEmpty_iff] using h1)]
  rw [h2]

theorem parse_timestamp_trailing_z {s : String} (h : 'Z' ∉ s.data) :
    parse_timestamp ⟨s.data ++ ['Z']⟩
      = parse_timestamp ⟨s.data ++ ['+', '0', '0', ':', '0', '0']⟩ := by
  have hz : replaceZ (s.data ++ ['Z']) = s.data ++ ['+', '0', '0', ':', '0', '0'] := by
    rw [replaceZ_append, replaceZ_of_not_mem h]; rfl
  have hnz : replaceZ (s.data ++ ['+', '0', '0', ':', '0', '0'])
      = s.data ++ ['+', '0', '0', ':', '0', '0'] := by
    rw [replaceZ_append, replaceZ_of_not_mem h]; rfl
  unfold parse_timestamp
  simp only [List.isEmpty_iff, hz, hnz]
  rw [if_neg (by simp), if_neg (by simp)]

/-! ## Sorting lemmas: Python's stable ascending sort -/

theorem sameClass_short {ks : List PyDateTime} (h : ks.length ≤ 1) :
    sameClass ks = true := by
  match ks with
  | [] => rfl
  | [k] =>
      simp only [sameClass, List.any_cons, List.any_nil, Bool.or_false]
      cases hk : k.tzOffset <;> simp [hk, Option.isSome, Option.isNone]
  | a :: b :: l => simp at h

theorem pySortByKey_of_sameClass {α : Type} (key : α → PyDateTime) (l : List α)
    (h : sameClass (l.map key) = true) :
    pySortByKey key l
      = .ok (List.insertionSort (fun a b => dtAbs (key a) ≤ dtAbs (key b)) l) := by
  unfold pySortByKey
  rw [if_pos h]

theorem pySortByKey_ok_eq {α : Type} {key : α → PyDateTime} {l s : List α}
    (h : pySortByKey key l = .ok s) :
    s = List.insertionSort (fun a b => dtAbs (key a) ≤ dtAbs (key b)) l := by
  unfold pySortByKey at h
  split at h
  · injection h with h'
    exact h'.symm
  · simp at h

theorem pySortByKey_ok_perm {α : Type} {key : α → PyDateTime} {l s : List α}
    (h : pySortByKey key l = .ok s) : s.Perm l := by
  rw [pySortByKey_ok_eq h]
  exact List.perm_insertionSort _ l

theorem pySortByKey_ok_sorted {α : Type} {key : α → PyDateTime} {l s : List α}
    (h : pySortByKey key l = .ok s) :
    s.Pairwise fun a b => dtAbs (key a) ≤ dtAbs (key b) := by
  rw [pySortByKey_ok_eq h]
  haveI : IsTotal α fun a b => dtAbs (key a) ≤ dtAbs (key b) :=
    ⟨fun a b => Int.le_total _ _⟩
  haveI : IsTrans α fun a b => dtAbs (key a) ≤ dtAbs (key b) :=
    ⟨fun _ _ _ hab hbc => le_trans hab hbc⟩
  exact List.sorted_insertionSort _ l

theorem filter_orderedInsert {α : Type} (key : α → PyDateTime) (K : Int)
    (x : α) (l : List α) :
    (List.orderedInsert (fun a b => dtAbs (key a) ≤ dtAbs (key b)) x l).filter
        (fun a => dtAbs (key a) == K)
      = if dtAbs (key x) = K then
          x :: l.filter (fun a => dtAbs (key a) == K)
        else l.filter (fun a => dtAbs (key a) == K) := by
  induction l with
  | nil =>
      by_cases hx : dtAbs (key x) = K <;>
        simp [List.orderedInsert, List.filter_cons, hx]
  | cons y ys ih =>
      by_cases hr : dtAbs (key x) ≤ dtAbs (key y)
      · rw [List.orderedInsert, if_pos hr]
        by_cases hx : dtAbs (key x) = K <;> simp [List.filter_cons, hx]
      · rw [List.orderedInsert, if_neg hr]
        by_cases hx : dtAbs (key x) = K
        · have hy : dtAbs (key y) ≠ K := by
            intro hEq
            exact hr (le_of_eq (hx.trans hEq.symm))
          simp [List.filter_cons, hy, hx, ih]
        · simp [List.filter_cons, hx, ih]

theorem filter_insertionSort {α : Type} (key : α → PyDateTime) (K : Int)
    (l : List α) :
    (List.insertionSort (fun a b => dtAbs (key a) ≤ dtAbs (key b)) l).filter
        (fun a => dtAbs (key a) == K)
      = l.filter (fun a => dtAbs (key a) == K) := by
  induction l with
  | nil => rfl
  | cons x xs ih =>
      rw [List.insertionSort, filter_orderedInsert]
      by_cases hx : dtAbs (key x) = K <;> simp [hx, ih, List.filter_cons]

theorem pySortByKey_ok_filter {α : Type} {key : α → PyDateTime} {l s : List α}
    (h : pySortByKey key l = .ok s) (K : Int) :
    s.filter (fun a => dtAbs (key a) == K) = l.filter (fun a => dtAbs (key a) == K) := by
  rw [pySortByKey_ok_eq h]
  exact filter_insertionSort key K l

/-! ## Classification lemmas -/

/-- A record's `type` is a single value, so it cannot equal two different
strings. -/
theorem isTypeStr_unique {r : Record} {s t : String} (hs : isTypeStr r s = true)
    (hne : s ≠ t) : isTypeStr r t = false := by
  unfold isTypeStr at hs ⊢
  cases hval : getField r "type" with
  | none => rw [hval] at hs
  | some v =>
      rw [hval] at hs
      cases v <;> simp_all

theorem isMessageType_not_lifecycle {r : Record} (h : isMessageType r = true) :
    isTypeStr r "session_start" = false ∧ isTypeStr r "session_end" = false ∧
      isTypeStr r "session_summary" = false := by
  unfold isMessageType at h
  rcases Bool.or_eq_true_iff.mp h with h' | hthink
  · rcases Bool.or_eq_true_iff.mp h' with huser | hassist
    · exact ⟨isTypeStr_unique huser (by decide), isTypeStr_unique huser (by decide),
        isTypeStr_unique huser (by decide)⟩
    · exact ⟨isTypeStr_unique hassist (by decide), isTypeStr_unique hassist (by decide),
        isTypeStr_unique hassist (by decide)⟩
  · exact ⟨isTypeStr_unique hthink (by decide), isTypeStr_unique hthink (by decide),
      isTypeStr_unique hthink (by decide)⟩

theorem extract_session_data_append (es : List Record) (e : Record) :
    extract_session_data (es ++ [e]) = classStep (extract_session_data es) e := by
  unfold extract_session_data
  rw [List.foldl_append]
  rfl

theorem extract_session_data_spec (events : List Record) :
    (extract_session_data events).session_start
        = (events.filter fun e => isTypeStr e "session_start").getLast?
  ∧ (extract_session_data events).session_end
        = (events.filter fun e => isTypeStr e "session_end").getLast?
  ∧ (extract_session_data events).session_summary
        = (events.filter fun e => isTypeStr e "session_summary").getLast?
  ∧ (extract_session_data events).messages = events.filter isMessageType
  ∧ (extract_session_data events).other_events = events.filter isOtherEvent := by
  induction events using List.reverseRecOn with
  | nil => exact ⟨rfl, rfl, rfl, rfl, rfl⟩
  | append_singleton es e ih =>
      obtain ⟨h1, h2, h3, h4, h5⟩ := ih
      rw [extract_session_data_append]
      unfold classStep
      by_cases hs : isTypeStr e "session_start" = true
      · have he : isTypeStr e "session_end" = false := isTypeStr_unique hs (by decide)
        have hsm : isTypeStr e "session_summary" = false := isTypeStr_unique hs (by decide)
        have hm : isMessageType e = false := by
          cases hmt : isMessageType e
          · rfl
          · exact absurd hs (by simp [(isMessageType_not_lifecycle hmt).1])
        have ho : isOtherEvent e = false := by simp [isOtherEvent, hs]
        simp [hs, he, hsm, hm, ho, List.filter_append, List.filter_cons,
          h1, h2, h3, h4, h5, List.getLast?_concat]
      · by_cases he : isTypeStr e "session_end" = true
        · have hsm : isTypeStr e "session_summary" = false := isTypeStr_unique he (by decide)
          have hm : isMessageType e = false := by
            cases hmt : isMessageType e
            · rfl
            · exact absurd he (by simp [(isMessageType_not_lifecycle hmt).2.1])
          have ho : isOtherEvent e = false := by simp [isOtherEvent, he]
          simp [hs, he, hsm, hm, ho, List.filter_append, List.filter_cons,
            h1, h2, h3, h4, h5, List.getLast?_concat]
        · by_cases hsm : isTypeStr e "session_summary" = true
          · have hm : isMessageType e = false := by
              cases hmt : isMessageType e
              · rfl
              · exact absurd hsm (by simp [(isMessageType_not_lifecycle hmt).2.2])
            have ho : isOtherEvent e = false := by simp [isOtherEvent, hsm]
            simp [hs, he, hsm, hm, ho, List.filter_append, List.filter_cons,
              h1, h2, h3, h4, h5, List.getLast?_concat]
          · by_cases hm : isMessageType e = true
            · have ho : isOtherEvent e = false := by simp [isOtherEvent, hm]
              simp [hs, he, hsm, hm, ho, List.filter_append, List.filter_cons,
                h1, h2, h3, h4, h5, List.getLast?_concat]
            · have ho : isOtherEvent e = true := by
                simp only [isOtherEvent]
                simp [Bool.not_eq_true] at hs he hsm hm
                simp [hs, he, hsm, hm]
              simp [hs, he, hsm, hm, ho, List.filter_append, List.filter_cons,
                h1, h2, h3, h4, h5, List.getLast?_concat]

/-! ## Aggregation lemmas -/

theorem foldl_aggStep (l : List Record) (t : Totals) :
    l.foldl aggStep t =
      ⟨t.total_duration_seconds
          + (l.map fun s => getIntD (getObjD s "summary_data") "total_duration_seconds").sum,
        t.total_messages
          + (l.map fun s => getIntD (getObjD s "summary_data") "total_messages").sum,
        t.assistant_messages
          + (l.map fun s => getIntD (getObjD s "summary_data") "assistant_messages").sum,
        t.user_prompts
          + (l.map fun s => getIntD (getObjD s "summary_data") "user_prompts").sum,
        t.total_input_tokens
          + (l.map fun s =>
              getIntD (getObjD (getObjD s "summary_data") "usage_totals") "total_input_tokens").sum,
        t.total_output_tokens
          + (l.map fun s =>
              getIntD (getObjD (getObjD s "summary_data") "usage_totals") "total_output_tokens").sum⟩ := by
  induction l generalizing t with
  | nil => cases t; simp
  | cons sRec l ih =>
      rw [List.foldl_cons, ih]
      simp [aggStep, add_assoc]

/-! ## Stamping lemmas -/

theorem stampMessages_eq_map (sds : List SessionData) (mergedId : String) :
    stampMessages sds mergedId
      = ((sds.map SessionData.messages).flatten).map (stampMessage mergedId) := by
  unfold stampMessages
  rw [List.map_flatten, List.map_map]
  rfl

theorem length_stampMessages (sds : List SessionData) (mergedId : String) :
    (stampMessages sds mergedId).length
      = (sds.map fun sd => sd.messages.length).sum := by
  unfold stampMessages
  rw [List.length_flatten, List.map_map,
    show (List.length ∘ fun sd => List.map (stampMessage mergedId) sd.messages)
        = fun sd : SessionData => sd.messages.length by
      funext sd
      simp [Function.comp]]

/-! ## Discovery and merge characterization lemmas -/

theorem find_session_files_ok {dir : Dir} {ps raws : List SFile}
    (h : find_session_files dir = .ok (ps, raws)) :
    pySortByKey get_start_time (dir.filter isPrimaryFile) = .ok ps := by
  unfold find_session_files at h
  split at h
  · simp at h
  · rename_i sorted heq
    simp only [Except.ok.injEq, Prod.mk.injEq] at h
    rw [heq, h.1]

theorem find_session_files_of_sameClass {dir : Dir}
    (h : sameClass ((dir.filter isPrimaryFile).map get_start_time) = true) :
    ∃ raws, find_session_files dir
      = .ok (List.insertionSort
          (fun a b => dtAbs (get_start_time a) ≤ dtAbs (get_start_time b))
          (dir.filter isPrimaryFile), raws) := by
  unfold find_session_files
  rw [pySortByKey_of_sameClass _ _ h]
  exact ⟨_, rfl⟩

theorem merge_sessions_merged {dir : Dir} {mergedId n1 n2 n3 f : String}
    {budget : Option Nat} {recs : List Record}
    (h : merge_sessions dir mergedId n1 n2 n3 budget = .merged f recs) :
    ∃ ps raws sorted,
      find_session_files dir = .ok (ps, raws)
      ∧ 2 ≤ ps.length
      ∧ pySortByKey msgKey (stampMessages (sessionDatas ps) mergedId) = .ok sorted
      ∧ f = "session_" ++ mergedId ++ ".jsonl"
      ∧ recs = mkStart mergedId n1 :: sorted
          ++ [mkSummary mergedId n2
                (aggregate_summaries (collectSummaries (sessionDatas ps))),
              mkEnd mergedId n3] := by
  unfold merge_sessions at h
  split at h
  · simp at h
  · rename_i ps raws heq
    split at h
    · simp at h
    · rename_i hlen
      split at h
      · simp at h
      · rename_i sorted heq2
        unfold writeAll at h
        split at h
        · rename_i hb
          simp only [MergeOutcome.merged.injEq] at h
          exact ⟨ps, raws, sorted, heq, by omega, heq2, h.1.symm, h.2.symm⟩
        · rename_i bb hb
          split at h
          · simp only [MergeOutcome.merged.injEq] at h
            exact ⟨ps, raws, sorted, heq, by omega, heq2, h.1.symm, h.2.symm⟩
          · simp at h

theorem merge_sessions_complete {dir : Dir} (mergedId n1 n2 n3 : String)
    {ps raws : List SFile}
    (hf : find_session_files dir = .ok (ps, raws))
    (hn : 2 ≤ ps.length)
    (hc : sameClass ((stampMessages (sessionDatas ps) mergedId).map msgKey) = true) :
    merge_sessions dir mergedId n1 n2 n3 none
      = .merged ("session_" ++ mergedId ++ ".jsonl")
          (mkStart mergedId n1
            :: List.insertionSort (fun a b => dtAbs (msgKey a) ≤ dtAbs (msgKey b))
                (stampMessages (sessionDatas ps) mergedId)
            ++ [mkSummary mergedId n2
                  (aggregate_summaries (collectSummaries (sessionDatas ps))),
                mkEnd mergedId n3]) := by
  unfold merge_sessions
  rw [hf]
  simp only
  rw [if_neg (by omega)]
  rw [pySortByKey_of_sameClass _ _ hc]
  rfl

/-! ## Claim theorems -/

/-- C9: the Session Classifier partitions a fragment's record list in a
single pass by the `type` discriminator: the last `session_start`,
`session_end` and `session_summary` occurrence each wins its slot; records
of type `user`, `assistant`, `assistant_thinking` are appended to the
message sequence in order; every other record — including one with no
`type` field — is appended to the unclassified sequence in order. -/
theorem C9_classifier_partition (events : List Record) :
    (extract_session_data events).session_start
        = (events.filter fun e => isTypeStr e "session_start").getLast?
  ∧ (extract_session_data events).session_end
        = (events.filter fun e => isTypeStr e "session_end").getLast?
  ∧ (extract_session_data events).session_summary
        = (events.filter fun e => isTypeStr e "session_summary").getLast?
  ∧ (extract_session_data events).messages = events.filter isMessageType
  ∧ (extract_session_data events).other_events = events.filter isOtherEvent :=
  extract_session_data_spec events

/-- C3: the aggregated totals are the exact field-by-field integer sums of
`total_duration_seconds`, `total_messages`, `assistant_messages`,
`user_prompts` and the nested `usage_totals` fields over all summary
records, a missing field or missing nested mapping contributing zero
(that is what `getIntD`/`getObjD` return on absence); and a fragment whose
summary slot is unset contributes nothing to the collected summary list,
without any error. -/
theorem C3_aggregate_totals :
    (∀ summaries : List Record,
      aggregate_summaries summaries = totalsRecord
        ⟨(summaries.map fun s =>
            getIntD (getObjD s "summary_data") "total_duration_seconds").sum,
          (summaries.map fun s =>
            getIntD (getObjD s "summary_data") "total_messages").sum,
          (summaries.map fun s =>
            getIntD (getObjD s "summary_data") "assistant_messages").sum,
          (summaries.map fun s =>
            getIntD (getObjD s "summary_data") "user_prompts").sum,
          (summaries.map fun s =>
            getIntD (getObjD (getObjD s "summary_data") "usage_totals")
              "total_input_tokens").sum,
          (summaries.map fun s =>
            getIntD (getObjD (getObjD s "summary_data") "usage_totals")
              "total_output_tokens").sum⟩)
  ∧ ∀ (sd : SessionData) (sds : List SessionData), sd.session_summary = none →
      collectSummaries (sd :: sds) = collectSummaries sds := by
  constructor
  · intro summaries
    unfold aggregate_summaries
    rw [foldl_aggStep]
    simp
  · intro sd sds hnone
    simp [collectSummaries, List.filterMap_cons, hnone]

/-- Witness for C3 at concrete inputs: the two example summaries (one of
which lacks the duration, prompt and output-token fields, and whose nested
`usage_totals` lacks `total_output_tokens`) sum to 5/3/0/0/350/7 — in
particular input tokens 100 and 250 sum to 350 — and a session with no
summary contributes nothing. -/
theorem C3_witness :
    aggregate_summaries [exSummA, exSummB] = totalsRecord ⟨5, 3, 0, 0, 350, 7⟩
  ∧ (⟨none, none, none, [], []⟩ : SessionData).session_summary = none
  ∧ collectSummaries [⟨none, none, none, [], []⟩] = collectSummaries [] :=
  ⟨(C3_aggregate_totals.1 [exSummA, exSummB]).trans (by rfl),
   rfl,
   C3_aggregate_totals.2 ⟨none, none, none, [], []⟩ [] rfl⟩

/-- C5: with fewer than two primary fragment files the merge is a no-op —
it returns the "not merged" outcome carrying the informational count of
primary files found, writes nothing, and raises no exception (for at most
one primary file the key list cannot mix naive and aware datetimes, so the
discovery sort cannot raise either). -/
theorem C5_fewer_than_two_no_op (dir : Dir) (mergedId n1 n2 n3 : String)
    (budget : Option Nat) (h : countPrimary dir < 2) :
    merge_sessions dir mergedId n1 n2 n3 budget
      = .notMerged (countPrimary dir) := by
  have hlen : (dir.filter isPrimaryFile).length < 2 := h
  have hsc : sameClass ((dir.filter isPrimaryFile).map get_start_time) = true := by
    apply sameClass_short
    rw [List.length_map]
    omega
  obtain ⟨raws, hfind⟩ := find_session_files_of_sameClass hsc
  have hlen2 : (List.insertionSort
      (fun a b => dtAbs (get_start_time a) ≤ dtAbs (get_start_time b))
      (dir.filter isPrimaryFile)).length = countPrimary dir :=
    (List.perm_insertionSort _ _).length_eq
  unfold merge_sessions
  rw [hfind]
  simp only
  rw [if_pos (by omega), hlen2]

/-- Witness for C5: a directory holding one primary fragment. -/
theorem C5_witness :
    countPrimary exDirSingle < 2
  ∧ merge_sessions exDirSingle "mid" "t1" "t2" "t3" none
      = .notMerged (countPrimary exDirSingle) :=
  ⟨by decide, C5_fewer_than_two_no_op exDirSingle "mid" "t1" "t2" "t3" none (by decide)⟩

/-- C8: the Record Reader is tolerant — an unreadable file yields the empty
record list (after a non-fatal warning), every record whose line parses is
kept, and deleting a malformed or blank line from a file leaves the reader's
output unchanged (bad lines are dropped while the remaining lines still
contribute). -/
theorem C8_reader_tolerance :
    (∀ name : String, read_session_events ⟨name, none⟩ = [])
  ∧ (∀ (name : String) (lines : List Line) (r : Record),
      Line.parsed r ∈ lines → r ∈ read_session_events ⟨name, some lines⟩)
  ∧ (∀ (name : String) (pre post : List Line),
      read_session_events ⟨name, some (pre ++ Line.bad :: post)⟩
        = read_session_events ⟨name, some (pre ++ post)⟩)
  ∧ (∀ (name : String) (pre post : List Line),
      read_session_events ⟨name, some (pre ++ Line.blank :: post)⟩
        = read_session_events ⟨name, some (pre ++ post)⟩) := by
  refine ⟨fun _ => rfl, ?_, ?_, ?_⟩
  · intro name lines r hmem
    show r ∈ lines.filterMap lineRecord
    exact List.mem_filterMap.mpr ⟨Line.parsed r, hmem, rfl⟩
  · intro name pre post
    show (pre ++ Line.bad :: post).filterMap lineRecord
      = (pre ++ post).filterMap lineRecord
    simp [List.filterMap_append, List.filterMap_cons, lineRecord]
  · intro name pre post
    show (pre ++ Line.blank :: post).filterMap lineRecord
      = (pre ++ post).filterMap lineRecord
    simp [List.filterMap_append, List.filterMap_cons, lineRecord]

/-- Witness for C8: an unreadable file reads as empty; `exFileB`'s third
line contributes its record even though the file has a blank line; dropping
a leading malformed line changes nothing. -/
theorem C8_witness :
    read_session_events ⟨"session_x.jsonl", none⟩ = []
  ∧ exMsgB ∈ read_session_events exFileB
  ∧ read_session_events ⟨"session_y.jsonl", some [Line.bad, Line.parsed exMsgA]⟩
      = read_session_events ⟨"session_y.jsonl", some [Line.parsed exMsgA]⟩ :=
  ⟨C8_reader_tolerance.1 "session_x.jsonl",
   C8_reader_tolerance.2.1 "session_bb.jsonl"
     [.parsed exStartB, .blank, .parsed exMsgB, .parsed exOtherB, .parsed exSummB]
     exMsgB (List.Mem.tail _ (List.Mem.tail _ (List.Mem.head _))),
   C8_reader_tolerance.2.2.1 "session_y.jsonl" [] [Line.parsed exMsgA]⟩

/-- C7 counterexample: a valid ISO-8601 string with no UTC offset parses to
a timezone-*naive* instant (not the sentinel), so the Timestamp Parser does
not always return a timezone-aware instant as the claim states. -/
theorem C7_counterexample :
    (parse_timestamp "2024-06-01T10:00:00").tzOffset = none
  ∧ parse_timestamp "2024-06-01T10:00:00" ≠ pyDatetimeMinUtc := by
  constructor
  · rfl
  · decide

/-- C7 (amended): for every input string the parser returns an instant
without raising; empty input yields the minimum representable aware
instant, as does any string `fromisoformat` rejects (after the `Z`
substitution); a parseable string yields exactly the parsed instant (which
is timezone-naive when the string carries no offset); and a trailing
literal `Z` (in a string with no other `Z`) is treated as the UTC offset
`+00:00` before ISO-8601 parsing. -/
theorem C7_parse_amended :
    parse_timestamp "" = pyDatetimeMinUtc
  ∧ (∀ s : String, s.data ≠ [] → pyFromisoformat (replaceZ s.data) = none →
      parse_timestamp s = pyDatetimeMinUtc)
  ∧ (∀ (s : String) (d : PyDateTime), s.data ≠ [] →
      pyFromisoformat (replaceZ s.data) = some d → parse_timestamp s = d)
  ∧ (∀ s : String, 'Z' ∉ s.data →
      parse_timestamp ⟨s.data ++ ['Z']⟩
        = parse_timestamp ⟨s.data ++ ['+', '0', '0', ':', '0', '0']⟩) :=
  ⟨rfl,
   fun _ h1 h2 => parse_timestamp_of_unparseable h1 h2,
   fun _ _ h1 h2 => parse_timestamp_of_parseable h1 h2,
   fun _ h => parse_timestamp_trailing_z h⟩

/-- Witness for C7 at concrete strings: `garbage` is unparseable and yields
the sentinel; a parseable offset-less string yields its (naive) instant;
`...Z` parses like `...+00:00`. -/
theorem C7_witness :
    parse_timestamp "garbage" = pyDatetimeMinUtc
  ∧ parse_timestamp "2024-06-01T10:00:00" = ⟨2024, 6, 1, 10, 0, 0, 0, none⟩
  ∧ parse_timestamp "2024-06-01T10:00:00Z"
      = parse_timestamp "2024-06-01T10:00:00+00:00" :=
  ⟨C7_parse_amended.2.1 "garbage" (by decide) (by decide),
   C7_parse_amended.2.2.1 "2024-06-01T10:00:00" ⟨2024, 6, 1, 10, 0, 0, 0, none⟩
     (by decide) (by decide),
   C7_parse_amended.2.2.2 "2024-06-01T10:00:00" (by decide)⟩

theorem firstStartTime_skip (pre : List Line) (r : Record) (post : List Line)
    (hpre : ∀ l ∈ pre, ∃ r2, l = Line.parsed r2
      ∧ isTypeStr r2 "session_start" = false)
    (hr : isTypeStr r "session_start" = true) :
    firstStartTime (pre ++ Line.parsed r :: post)
      = parse_timestamp (tsString r) := by
  induction pre with
  | nil => simp [firstStartTime, hr]
  | cons l pre ih =>
      obtain ⟨r2, hl, hr2⟩ := hpre l (by simp)
      subst hl
      rw [List.cons_append]
      show firstStartTime (Line.parsed r2 :: (pre ++ Line.parsed r :: post)) = _
      rw [firstStartTime, if_neg (by simp [hr2])]
      exact ih fun l hl => hpre l (by simp [hl])

/-- C6 counterexample: `exFileBadFirst` contains a `session_start` record
(its record list, as the Record Reader produces it, has exactly one), yet
`get_start_time` assigns the sentinel key, not that record's parsed
timestamp — the malformed first line aborts the start-time scan, contrary
to the claim that the key is the first `session_start` record's timestamp
whenever such a record exists. -/
theorem C6_counterexample :
    ((read_session_events exFileBadFirst).filter
        fun r => isTypeStr r "session_start").length = 1
  ∧ get_start_time exFileBadFirst = pyDatetimeMinUtc
  ∧ parse_timestamp (tsString exStartA) ≠ pyDatetimeMinUtc := by
  refine ⟨by decide, rfl, by decide⟩

/-- C6 (amended): the discovery key of a primary file is the parsed
timestamp of the first `session_start` record occurring before any blank or
malformed line (the sentinel earliest instant when the scan hits such a
line, the end of file, or an unreadable file first), and discovery returns
the primary files sorted ascending by this key. -/
theorem C6_discovery_key_and_order :
    (∀ (f : SFile) (pre : List Line) (r : Record) (post : List Line),
        f.content = some (pre ++ Line.parsed r :: post) →
        (∀ l ∈ pre, ∃ r2, l = Line.parsed r2
          ∧ isTypeStr r2 "session_start" = false) →
        isTypeStr r "session_start" = true →
        get_start_time f = parse_timestamp (tsString r))
  ∧ ∀ (dir : Dir) (ps raws : List SFile),
      find_session_files dir = .ok (ps, raws) →
      ps.Pairwise fun a b => dtAbs (get_start_time a) ≤ dtAbs (get_start_time b) := by
  constructor
  · intro f pre r post hcontent hpre hr
    unfold get_start_time
    rw [hcontent]
    exact firstStartTime_skip pre r post hpre hr
  · intro dir ps raws hfind
    exact pySortByKey_ok_sorted (find_session_files_ok hfind)

/-- Witness for C6 (amended): a file whose `session_start` is its second
record (behind one well-formed non-start record) gets that record's parsed
timestamp as key, and the discovery output for the example directory is
sorted ascending by key. -/
theorem C6_witness :
    get_start_time exFileStartSecond = parse_timestamp (tsString exStartB)
  ∧ ([exFileA, exFileB].Pairwise
      fun a b => dtAbs (get_start_time a) ≤ dtAbs (get_start_time b)) := by
  constructor
  · refine C6_discovery_key_and_order.1 exFileStartSecond
      [Line.parsed exOtherB] exStartB [] rfl ?_ (by decide)
    intro l hl
    simp only [List.mem_singleton] at hl
    exact ⟨exOtherB, hl, by decide⟩
  · exact C6_discovery_key_and_order.2 exDirOk [exFileA, exFileB] []
      (by with_unfolding_all rfl)

/-- C10: evaluation of the code at a failing input — merging the example
directory with the file system failing after one line write propagates the
failure as a hard error (the `writeFailed` outcome, an uncaught exception),
but the truncated output file holding just the synthesized start record is
left behind: the write is *not* all-or-nothing, contradicting the claim's
"no partial, half-written output file is left behind". -/
theorem C10_partial_write :
    merge_sessions exDirOk "mid" "t1" "t2" "t3" (some 1)
      = .writeFailed "session_mid.jsonl" [mkStart "mid" "t1"]
  ∧ [mkStart "mid" "t1"] ≠ ([] : List Record) :=
  ⟨rfl, by simp⟩

/-- C2: whenever the merge produces an output, its record sequence is the
synthesized start, the messages, the synthesized summary and end; the
message sequence is sorted non-decreasing by the instant the Timestamp
Parser derives from each record's `timestamp` (so a strictly smaller
instant always comes first), and messages with equal instants keep their
relative order from the fragment read order — for every instant, filtering
the output messages by that instant yields exactly the corresponding
filtering of the stamped messages in fragment read order. -/
theorem C2_sorted_stable (dir : Dir) (mergedId n1 n2 n3 f : String)
    (budget : Option Nat) (recs : List Record)
    (h : merge_sessions dir mergedId n1 n2 n3 budget = .merged f recs) :
    ∃ ps raws msgs,
      find_session_files dir = .ok (ps, raws)
      ∧ recs = mkStart mergedId n1 :: msgs
          ++ [mkSummary mergedId n2
                (aggregate_summaries (collectSummaries (sessionDatas ps))),
              mkEnd mergedId n3]
      ∧ msgs.Pairwise (fun a b => dtAbs (msgKey a) ≤ dtAbs (msgKey b))
      ∧ ∀ K : Int, msgs.filter (fun m => dtAbs (msgKey m) == K)
          = (stampMessages (sessionDatas ps) mergedId).filter
              (fun m => dtAbs (msgKey m) == K) := by
  obtain ⟨ps, raws, sorted, hfind, hlen, hsort, hf, hrecs⟩ := merge_sessions_merged h
  exact ⟨ps, raws, sorted, hfind, hrecs,
    pySortByKey_ok_sorted hsort, pySortByKey_ok_filter hsort⟩

/-- Witness for C2: the example merge output. -/
theorem C2_witness :
    ∃ ps raws msgs,
      find_session_files exDirOk = .ok (ps, raws)
      ∧ exMergedRecords = mkStart "mid" "t1" :: msgs
          ++ [mkSummary "mid" "t2"
                (aggregate_summaries (collectSummaries (sessionDatas ps))),
              mkEnd "mid" "t3"]
      ∧ msgs.Pairwise (fun a b => dtAbs (msgKey a) ≤ dtAbs (msgKey b))
      ∧ ∀ K : Int, msgs.filter (fun m => dtAbs (msgKey m) == K)
          = (stampMessages (sessionDatas ps) "mid").filter
              (fun m => dtAbs (msgKey m) == K) :=
  C2_sorted_stable exDirOk "mid" "t1" "t2" "t3" "session_mid.jsonl" none exMergedRecords rfl

/-- C4: every message record placed in the merged output is the copy of an
original fragment message with its `session_id` overwritten by the freshly
generated merged identifier: the stamped copy's `session_id` equals the
merged identifier, and every other field is unchanged from the original
record (which itself, being the un-stamped member of the fragment data, is
never mutated — the merge operates on `setField` copies). -/
theorem C4_stamped_messages (dir : Dir) (mergedId n1 n2 n3 f : String)
    (budget : Option Nat) (recs : List Record)
    (h : merge_sessions dir mergedId n1 n2 n3 budget = .merged f recs) :
    ∃ ps raws msgs,
      find_session_files dir = .ok (ps, raws)
      ∧ recs = mkStart mergedId n1 :: msgs
          ++ [mkSummary mergedId n2
                (aggregate_summaries (collectSummaries (sessionDatas ps))),
              mkEnd mergedId n3]
      ∧ ∀ r ∈ msgs, ∃ m ∈ allFragMessages ps,
          r = setField m "session_id" (.jstr mergedId)
          ∧ getField r "session_id" = some (.jstr mergedId)
          ∧ ∀ k, k ≠ "session_id" → getField r k = getField m k := by
  obtain ⟨ps, raws, sorted, hfind, hlen, hsort, hf, hrecs⟩ := merge_sessions_merged h
  refine ⟨ps, raws, sorted, hfind, hrecs, ?_⟩
  intro r hr
  have hmem : r ∈ stampMessages (sessionDatas ps) mergedId :=
    ((pySortByKey_ok_perm hsort).mem_iff).mp hr
  rw [stampMessages_eq_map] at hmem
  obtain ⟨m, hm, hstamp⟩ := List.mem_map.mp hmem
  have hset : r = setField m "session_id" (.jstr mergedId) := hstamp.symm
  refine ⟨m, hm, hset, ?_, ?_⟩
  · rw [hset]
    exact getField_setField_self m "session_id" (.jstr mergedId)
  · intro k hk
    rw [hset]
    exact getField_setField_of_ne m "session_id" k (.jstr mergedId) hk

/-- Witness for C4: the example merge output. -/
theorem C4_witness :
    ∃ ps raws msgs,
      find_session_files exDirOk = .ok (ps, raws)
      ∧ exMergedRecords = mkStart "mid" "t1" :: msgs
          ++ [mkSummary "mid" "t2"
                (aggregate_summaries (collectSummaries (sessionDatas ps))),
              mkEnd "mid" "t3"]
      ∧ ∀ r ∈ msgs, ∃ m ∈ allFragMessages ps,
          r = setField m "session_id" (.jstr "mid")
          ∧ getField r "session_id" = some (.jstr "mid")
          ∧ ∀ k, k ≠ "session_id" → getField r k = getField m k :=
  C4_stamped_messages exDirOk "mid" "t1" "t2" "t3" "session_mid.jsonl" none exMergedRecords rfl

/-- C1 counterexample: `exDirMixed` holds two primary fragment files, one
message timestamp parsing timezone-naive and the other timezone-aware, so
the message sort raises `TypeError` and the merge produces no output file
at all — refuting the claim that *every* directory with at least two
primary fragments yields exactly one output file. -/
theorem C1_counterexample :
    countPrimary exDirMixed = 2
  ∧ merge_sessions exDirMixed "mid" "t1" "t2" "t3" none = .typeError :=
  ⟨by decide, rfl⟩

/-- C1 (amended): for every directory whose discovery succeeds with at
least two primary fragment files and whose messages' parsed timestamps do
not mix the timezone-naive and timezone-aware classes, the merge (with the
write succeeding) produces exactly one output file whose record sequence is
one synthesized `session_start`, then all messages collected from every
fragment — a permutation of the stamped fragment messages, so the output
message count equals the sum of the per-fragment message counts — then one
synthesized `session_summary` and one synthesized `session_end`; in
particular unclassified records are never emitted. -/
theorem C1_merge_structure (dir : Dir) (mergedId n1 n2 n3 : String)
    (ps raws : List SFile)
    (hf : find_session_files dir = .ok (ps, raws))
    (hn : 2 ≤ ps.length)
    (hc : sameClass ((stampMessages (sessionDatas ps) mergedId).map msgKey) = true) :
    ∃ msgs,
      merge_sessions dir mergedId n1 n2 n3 none
        = .merged ("session_" ++ mergedId ++ ".jsonl")
            (mkStart mergedId n1 :: msgs
              ++ [mkSummary mergedId n2
                    (aggregate_summaries (collectSummaries (sessionDatas ps))),
                  mkEnd mergedId n3])
      ∧ msgs.Perm (stampMessages (sessionDatas ps) mergedId)
      ∧ msgs.length = ((sessionDatas ps).map fun sd => sd.messages.length).sum := by
  refine ⟨_, merge_sessions_complete mergedId n1 n2 n3 hf hn hc, ?_, ?_⟩
  · exact List.perm_insertionSort _ _
  · rw [(List.perm_insertionSort _ _).length_eq, length_stampMessages]

/-- Witness for C1 (amended): the example directory of two aware-timestamp
fragments. -/
theorem C1_witness :
    ∃ msgs,
      merge_sessions exDirOk "mid" "t1" "t2" "t3" none
        = .merged ("session_" ++ "mid" ++ ".jsonl")
            (mkStart "mid" "t1" :: msgs
              ++ [mkSummary "mid" "t2"
                    (aggregate_summaries
                      (collectSummaries (sessionDatas [exFileA, exFileB]))),
                  mkEnd "mid" "t3"])
      ∧ msgs.Perm (stampMessages (sessionDatas [exFileA, exFileB]) "mid")
      ∧ msgs.length
          = ((sessionDatas [exFileA, exFileB]).map fun sd => sd.messages.length).sum :=
  C1_merge_structure exDirOk "mid" "t1" "t2" "t3" [exFileA, exFileB] []
    (by with_unfolding_all rfl) (by decide) (by decide)
